import Mathlib

/-!
Verification of the nested partial-update engine of the Thea project-management
backend: the diff engine (`generate_differences_message` and its helpers in
`src/main/services/utils.py`), the audit-record constructor
(`Workflows.update_workflows` in `src/main/services/workflows.py`), the batch
update loops shared by the issue, milestone and report services
(`update_existing_issue` / `update_existing_milestone` / `update_existing_reports`),
and the creation defaults of issues and of the project analytics skeleton
(`create_new_issue`, `create_new_project`).

Modelling conventions:
* Python dictionaries with string keys become association lists
  (`Dict := List (String × Value)`) whose key lists are insertion-ordered;
  `List.lookup` is dictionary access and `dictInsert` is `d[k] = v`.
* The diff algorithm inspects values only through structural equality (`==`)
  and the test `isinstance(v, str)`.  A `Value` is therefore either scalar
  text (`Value.vstr`, a Python `str`) or any other JSON-ish datum — number,
  boolean, list or nested object — represented opaquely by a canonical
  encoding string (`Value.vraw`); two structured values are equal exactly
  when their encodings are.
* Python's `list(set(xs))` has unspecified order; we fix the deterministic
  representative that keeps each element's first occurrence (`List.dedup`),
  matching the source's set semantics up to ordering.
* Effects of the document store are abstracted by a `Db` record: `read`
  returns the entity stored at `scopes.{scopeId}.<collection>.{entityId}`
  (`none` both when the aggregate is missing and when the nested path is
  absent, which is how `read_single_item` + the falsy check behave), and
  `updateStatus` is the HTTP status code `update_item` reports for the merge
  write of a given item.  Freshly generated UUIDs and wall-clock strings are
  inputs (`uuid`, `now`, `today`).
-/

/-- A Python value as seen by the diff engine: scalar text, or any other
structured datum represented opaquely by a canonical encoding. -/
inductive Value where
  | vstr (s : String)
  | vraw (enc : String)
deriving DecidableEq, Repr

/-- A Python dict with string keys: an insertion-ordered association list. -/
abbrev Dict := List (String × Value)

/-- Python `d[k] = v`: replace the value at an existing key in place,
otherwise append the new binding at the end. -/
def dictInsert (d : Dict) (k : String) (v : Value) : Dict :=
  match d with
  | [] => [(k, v)]
  | (k', v') :: rest => if k' = k then (k, v) :: rest else (k', v') :: dictInsert rest k v

/-- `get_common_keys` (utils.py:91): `list(set(dict_a.keys()) & set(dict_b.keys()))`,
keeping the first dict's key order as the deterministic representative of the
source's unordered set. -/
def get_common_keys (dict_a dict_b : Dict) : List String :=
  ((dict_a.map Prod.fst).filter (fun k => (dict_b.map Prod.fst).contains k)).dedup

/-- The camel-case to human label conversion of utils.py:63/66:
`sub(r'(?<!^)(?=[A-Z])', ' ', k).lower()` — on every non-first character. -/
def camelTail (c : Char) : List Char :=
  if c.isUpper then [' ', c.toLower] else [c.toLower]

/-- Label of a field name: a space is inserted before every upper-case
character other than the first, then everything is lower-cased (ASCII, as
the source regex's `[A-Z]`). -/
def camelToLabel (s : String) : String :=
  match s.data with
  | [] => String.mk []
  | c :: rest => String.mk (c.toLower :: (rest.map camelTail).flatten)

/-- The identifier fields hard-coded at utils.py:55. -/
def excluded_ids : List String := ["scopeId", "issueId", "projectId", "milestoneId"]

/-- The message emitted for one changed key (utils.py:62-67): with the old and
new values when both are scalar text, without them otherwise. -/
def entry_message (k : String) (old new : Value) : String :=
  match old, new with
  | .vstr o, .vstr n =>
      "Updated '" ++ camelToLabel k ++ "' from '" ++ o ++ "' to '" ++ n ++ "'"
  | _, _ => "Updated '" ++ camelToLabel k ++ "'"

/-- The message-building loop of utils.py:53-67 over a list of common keys:
identifier keys are skipped, unchanged keys are skipped, changed keys emit
`entry_message`.  (For a common key both lookups succeed; the fallthrough
branch is unreachable there.) -/
def diff_messages (dict_a dict_b : Dict) : List String → List String
  | [] => []
  | k :: ks =>
    match dict_a.lookup k, dict_b.lookup k with
    | some old, some new =>
      if k ∈ excluded_ids then diff_messages dict_a dict_b ks
      else if old = new then diff_messages dict_a dict_b ks
      else entry_message k old new :: diff_messages dict_a dict_b ks
    | _, _ => diff_messages dict_a dict_b ks

/-- `generate_differences_message` (utils.py:31-69): messages for the changed
non-identifier common keys, deduplicated (`list(set(message))`). -/
def generate_differences_message (dict_a dict_b : Dict) : List String :=
  (diff_messages dict_a dict_b (get_common_keys dict_a dict_b)).dedup

/-- The claims decoded from the caller's JWT that
`Workflows.update_workflows` (workflows.py:83-94) actually reads:
`email`, `name` and `custom:username`. -/
structure TokenClaims where
  email : String
  name : String
  username : String
deriving DecidableEq, Repr

/-- An audit (workflow) record, mirroring the dict built at
workflows.py:86-96. -/
structure WorkflowRecord where
  itemId : String
  meta : List String
  action : String
  typeId : Value
  projectId : String
  email : String
  name : String
  username : String
  timestamp : String
deriving DecidableEq, Repr

/-- `Workflows.update_workflows` (workflows.py:49-98): builds the audit record
from the decoded token claims; the freshly generated `uuid4` hex and the
wall-clock `time()` string are environment inputs. -/
def update_workflows (claims : TokenClaims) (action : String) (message : List String)
    (project_id : String) (item_id : Value) (uuid now : String) : WorkflowRecord :=
  { itemId := uuid
    meta := message
    action := action
    typeId := item_id
    projectId := project_id
    email := claims.email
    name := claims.name
    username := claims.username
    timestamp := now }

/-- The document store as the batch loops observe it: `read scopeId entityId`
is the entity found at `scopes.{scopeId}.<collection>.{entityId}` (`none` when
the aggregate or the nested path is absent, i.e. `read_single_item` returned a
falsy item), and `updateStatus item` is the HTTP status code `update_item`
reports for the merge write of `item`. -/
structure Db where
  read : Value → Value → Option Dict
  updateStatus : Dict → Nat

/-- Accumulator of one batch loop: the `success` and `fail` id lists and the
workflow records written so far. -/
abbrev BatchAcc := List Value × List Value × List WorkflowRecord

/-- One iteration of the batch-update loop shared by
`IssuesTracker.update_existing_issue` (issues_tracker.py:404-454),
`MilestonesManager.update_existing_milestone` (milestones_manager.py:312-344)
and `ReportsManager.update_existing_reports` (reports_manager.py:303-334),
parametrised by the entity's id key (`issueId` / `milestoneId` / `reportId`)
and the timestamp key it sets (`lastUpdate` / `lastUpdate` / `lastUpdated`):
read the previous entity (skip the item when absent), set the timestamp field,
merge-write the item, append an audit record when the diff is non-empty, and
classify the item by the write's status code.  A missing `scopeId` or id key
raises `KeyError` in the source, modelled as the `.error` branch. -/
def process_item (idKey lastUpdateKey : String) (db : Db) (claims : TokenClaims)
    (project_id today uuid now : String) (item : Dict) (acc : BatchAcc) :
    Except String BatchAcc :=
  match item.lookup "scopeId", item.lookup idKey with
  | some scope_id, some entity_id =>
    match db.read scope_id entity_id with
    | none => .ok acc
    | some previous_item =>
      let item' := dictInsert item lastUpdateKey (.vstr today)
      let status := db.updateStatus item'
      let message := generate_differences_message previous_item item'
      let (success, fail, ws) := acc
      let ws' := if message = [] then ws
        else ws ++ [update_workflows claims "Update" message project_id entity_id uuid now]
      if 200 ≤ status ∧ status < 300 then .ok (success ++ [entity_id], fail, ws')
      else .ok (success, fail ++ [entity_id], ws')
  | _, _ => .error "KeyError"

/-- The batch loop: `process_item` over the items in order, no fail-fast
(one item's failure never aborts later items; only a raised exception does). -/
def batch_update_go (idKey lastUpdateKey : String) (db : Db) (claims : TokenClaims)
    (project_id today uuid now : String) : List Dict → BatchAcc → Except String BatchAcc
  | [], acc => .ok acc
  | item :: rest, acc =>
    match process_item idKey lastUpdateKey db claims project_id today uuid now item acc with
    | .ok acc' => batch_update_go idKey lastUpdateKey db claims project_id today uuid now rest acc'
    | .error e => .error e

/-- The status-code reduction duplicated at issues_tracker.py:461-468,
milestones_manager.py:351-358 and reports_manager.py:340-347. -/
def determine_status_code (success fail : List Value) : Nat :=
  if success.length ≥ 1 ∧ fail.length = 0 then 200
  else if success.length = 0 ∧ fail.length ≥ 1 then 403
  else if success.length ≥ 1 ∧ fail.length ≥ 1 then 405
  else 304

/-- Result of one batch update: the success/fail id lists, the audit records
written along the way, and the classified status code. -/
structure BatchResult where
  success : List Value
  fail : List Value
  workflows : List WorkflowRecord
  statusCode : Nat
deriving DecidableEq, Repr

/-- The whole batch-update pattern: run the loop from empty accumulators and
classify `{"success": success, "fail": fail}, http_status_code`. -/
def batch_update (idKey lastUpdateKey : String) (db : Db) (claims : TokenClaims)
    (project_id today uuid now : String) (items : List Dict) : Except String BatchResult :=
  (batch_update_go idKey lastUpdateKey db claims project_id today uuid now items ([], [], [])).map
    (fun acc => { success := acc.1
                  fail := acc.2.1
                  workflows := acc.2.2
                  statusCode := determine_status_code acc.1 acc.2.1 })

/-- `IssuesTracker.update_existing_issue` (issues_tracker.py:359-470). -/
def update_existing_issue (db : Db) (claims : TokenClaims)
    (project_id today uuid now : String) (items : List Dict) : Except String BatchResult :=
  batch_update "issueId" "lastUpdate" db claims project_id today uuid now items

/-- `MilestonesManager.update_existing_milestone` (milestones_manager.py:274-360). -/
def update_existing_milestone (db : Db) (claims : TokenClaims)
    (project_id today uuid now : String) (items : List Dict) : Except String BatchResult :=
  batch_update "milestoneId" "lastUpdate" db claims project_id today uuid now items

/-- `ReportsManager.update_existing_reports` (reports_manager.py:303-349). -/
def update_existing_reports (db : Db) (claims : TokenClaims)
    (project_id today uuid now : String) (items : List Dict) : Except String BatchResult :=
  batch_update "reportId" "lastUpdated" db claims project_id today uuid now items

/-- The issue record built by `IssuesTracker.create_new_issue`
(issues_tracker.py:188-207); `status` is the literal `"open"` and
`lastUpdated` is today's date. -/
def create_new_issue_object (object_id scope_id issue_name region business_unit
    date_of_raise due_date nature_of_issue criticality issue_description
    impact_value currency impact_on : String) (document_ref issue_owner : Value)
    (resolution_path today : String) : Dict :=
  [("scopeId", .vstr scope_id),
   ("issueName", .vstr issue_name),
   ("region", .vstr region),
   ("businessUnit", .vstr business_unit),
   ("dateOfRaise", .vstr date_of_raise),
   ("dueDate", .vstr due_date),
   ("natureOfIssue", .vstr nature_of_issue),
   ("criticality", .vstr criticality),
   ("issueDescription", .vstr issue_description),
   ("status", .vstr "open"),
   ("impactValue", .vstr impact_value),
   ("currency", .vstr currency),
   ("impactOn", .vstr impact_on),
   ("documentRef", document_ref),
   ("issueOwner", issue_owner),
   ("resolutionPath", resolution_path |> .vstr),
   ("lastUpdated", .vstr today),
   ("issueId", .vstr object_id)]

/-- The `analytics.issues.criticality` counters (projects_manager.py:196-200). -/
structure CriticalityCounters where
  high : Nat
  medium : Nat
  low : Nat
deriving DecidableEq, Repr

/-- The `analytics.issues.status` counters (projects_manager.py:201). -/
structure IssueStatusCounters where
  «open» : Nat
  closed : Nat
  total : Nat
deriving DecidableEq, Repr

/-- The `dueSoon`/`dueToday`/`overdue` time-bucket counters
(projects_manager.py:202-206 and the analogous blocks). -/
structure TimeCounters where
  dueSoon : Nat
  dueToday : Nat
  overdue : Nat
deriving DecidableEq, Repr

/-- The `analytics.issues` block (projects_manager.py:195-208);
`natureOfIssue` is a dynamic map from issue nature to a counter. -/
structure IssuesAnalytics where
  criticality : CriticalityCounters
  status : IssueStatusCounters
  time : TimeCounters
  natureOfIssue : List (String × Nat)
deriving DecidableEq, Repr

/-- The `analytics.milestones.status` counters (projects_manager.py:215). -/
structure MilestoneStatusCounters where
  completed : Nat
  inProgress : Nat
  total : Nat
deriving DecidableEq, Repr

/-- The `analytics.milestones` block (projects_manager.py:209-216). -/
structure MilestonesAnalytics where
  time : TimeCounters
  status : MilestoneStatusCounters
deriving DecidableEq, Repr

/-- The `analytics.scopes.status` counters (projects_manager.py:218-222). -/
structure ScopeStatusCounters where
  pending : Nat
  rejected : Nat
  accepted : Nat
deriving DecidableEq, Repr

/-- The `analytics.scopes` block (projects_manager.py:217-228). -/
structure ScopesAnalytics where
  status : ScopeStatusCounters
  time : TimeCounters
deriving DecidableEq, Repr

/-- The `analytics.documents.status` counters (projects_manager.py:235-241). -/
structure DocumentStatusCounters where
  requested : Nat
  submitted : Nat
  accepted : Nat
  rejected : Nat
  total : Nat
deriving DecidableEq, Repr

/-- The `analytics.documents` block (projects_manager.py:229-242). -/
structure DocumentsAnalytics where
  time : TimeCounters
  status : DocumentStatusCounters
deriving DecidableEq, Repr

/-- The whole `analytics` value (projects_manager.py:194-256). -/
structure Analytics where
  issues : IssuesAnalytics
  milestones : MilestonesAnalytics
  scopes : ScopesAnalytics
  documents : DocumentsAnalytics
deriving DecidableEq, Repr

/-- The analytics skeleton seeded by `ProjectsManager.create_new_project`
(projects_manager.py:194-256): every counter is the literal `0` and the one
dynamic map, `natureOfIssue`, is `{}`. -/
def analytics_skeleton : Analytics :=
  { issues :=
      { criticality := { high := 0, medium := 0, low := 0 }
        status := { «open» := 0, closed := 0, total := 0 }
        time := { dueSoon := 0, dueToday := 0, overdue := 0 }
        natureOfIssue := [] }
    milestones :=
      { time := { dueSoon := 0, dueToday := 0, overdue := 0 }
        status := { completed := 0, inProgress := 0, total := 0 } }
    scopes :=
      { status := { pending := 0, rejected := 0, accepted := 0 }
        time := { dueSoon := 0, dueToday := 0, overdue := 0 } }
    documents :=
      { time := { dueSoon := 0, dueToday := 0, overdue := 0 }
        status := { requested := 0, submitted := 0, accepted := 0, rejected := 0, total := 0 } } }

/-- All leaf counters of an analytics value, flattened in source order;
"every leaf counter is zero" is this list being all zeros. -/
def Analytics.leafCounters (a : Analytics) : List Nat :=
  [a.issues.criticality.high, a.issues.criticality.medium, a.issues.criticality.low,
   a.issues.status.«open», a.issues.status.closed, a.issues.status.total,
   a.issues.time.dueSoon, a.issues.time.dueToday, a.issues.time.overdue,
   a.milestones.time.dueSoon, a.milestones.time.dueToday, a.milestones.time.overdue,
   a.milestones.status.completed, a.milestones.status.inProgress, a.milestones.status.total,
   a.scopes.status.pending, a.scopes.status.rejected, a.scopes.status.accepted,
   a.scopes.time.dueSoon, a.scopes.time.dueToday, a.scopes.time.overdue,
   a.documents.time.dueSoon, a.documents.time.dueToday, a.documents.time.overdue,
   a.documents.status.requested, a.documents.status.submitted, a.documents.status.accepted,
   a.documents.status.rejected, a.documents.status.total]
  ++ a.issues.natureOfIssue.map Prod.snd

/-- Fixed sample token claims used to instantiate witnesses. -/
def sample_claims : TokenClaims :=
  { email := "ann@example.com", name := "Ann Lee", username := "ann" }

/-- A store holding nothing whose writes report success. -/
def empty_db : Db := { read := fun _ _ => none, updateStatus := fun _ => 200 }

/-- Stored milestone `M1` of the three-milestone batch scenario. -/
def m_prev1 : Dict :=
  [("scopeId", .vstr "S1"), ("milestoneName", .vstr "alpha"), ("milestoneId", .vstr "M1")]

/-- Stored milestone `M2` of the three-milestone batch scenario. -/
def m_prev2 : Dict :=
  [("scopeId", .vstr "S1"), ("milestoneName", .vstr "beta"), ("milestoneId", .vstr "M2")]

/-- Store of the three-milestone scenario: milestones `M1` and `M2` exist,
nothing else does, and every merge write succeeds with 200. -/
def scenario_db : Db :=
  { read := fun _ e =>
      if e = .vstr "M1" then some m_prev1
      else if e = .vstr "M2" then some m_prev2
      else none
    updateStatus := fun _ => 200 }

/-- Proposed update for milestone `M1`. -/
def m_item1 : Dict :=
  [("scopeId", .vstr "S1"), ("milestoneId", .vstr "M1"), ("milestoneName", .vstr "alpha2")]

/-- Proposed update for milestone `M2`. -/
def m_item2 : Dict :=
  [("scopeId", .vstr "S1"), ("milestoneId", .vstr "M2"), ("milestoneName", .vstr "beta2")]

/-- Proposed update targeting the non-existent milestone `M404`. -/
def m_item3 : Dict :=
  [("scopeId", .vstr "S1"), ("milestoneId", .vstr "M404"), ("milestoneName", .vstr "gamma")]

/-- The previously stored issue of the criticality scenario: created on
2026-01-01 with criticality `"low"` and due date `"2026-02-01"`. -/
def issue_prev : Dict :=
  create_new_issue_object "I1" "S1" "Login failure" "EU" "Platform" "2026-01-01"
    "2026-02-01" "technical" "low" "Users cannot log in" "1000" "USD" "Operations"
    (.vraw "documentRef") (.vraw "issueOwner") "Restart the service" "2026-01-01"

/-- Store of the criticality scenario: only issue `I1` in scope `S1` exists,
and every merge write succeeds with 200. -/
def issue_db : Db :=
  { read := fun s e =>
      if s = .vstr "S1" ∧ e = .vstr "I1" then some issue_prev else none
    updateStatus := fun _ => 200 }

/-- Proposed update of the criticality scenario: criticality `"high"`, due
date unchanged. -/
def issue_item : Dict :=
  [("scopeId", .vstr "S1"), ("issueId", .vstr "I1"),
   ("criticality", .vstr "high"), ("dueDate", .vstr "2026-02-01")]

/-- A store whose writes always fail with 500, over the scenario milestones. -/
def failing_db : Db :=
  { read := scenario_db.read, updateStatus := fun _ => 500 }

/-- A proposed milestone update identical to the stored `M1`, so its diff is
empty. -/
def m_item_noop : Dict :=
  [("scopeId", .vstr "S1"), ("milestoneId", .vstr "M1"), ("milestoneName", .vstr "alpha")]

/-- Previous state with two distinct keys (`"aB"` and `"a b"`) whose labels
coincide, so their change messages are identical strings. -/
def dup_prev : Dict := [("aB", .vraw "z"), ("a b", .vraw "z")]

/-- Proposed state changing both label-colliding keys. -/
def dup_proposed : Dict := [("aB", .vraw "w"), ("a b", .vraw "w")]

/-- A successful lookup witnesses that the key occurs in the dict. -/
theorem lookup_mem_keys {d : Dict} {k : String} {v : Value}
    (h : d.lookup k = some v) : k ∈ d.map Prod.fst := by
  induction d with
  | nil => simp [List.lookup] at h
  | cons p rest ih =>
    obtain ⟨k', v'⟩ := p
    rw [List.lookup] at h
    cases hbeq : (k == k') with
    | true =>
      have : k = k' := by simpa using hbeq
      simp [this]
    | false =>
      rw [hbeq] at h
      simpa using Or.inr (ih h)

/-- Membership in the common keys is membership in both key lists. -/
theorem mem_get_common_keys {a b : Dict} {k : String} :
    k ∈ get_common_keys a b ↔ k ∈ a.map Prod.fst ∧ k ∈ b.map Prod.fst := by
  simp [get_common_keys, List.mem_filter, List.elem_iff]

/-- Characterisation of the messages the diff loop produces over a key list:
exactly the `entry_message`s of non-identifier keys of the list present in
both dicts with differing values. -/
theorem mem_diff_messages {a b : Dict} {m : String} : ∀ {ks : List String},
    m ∈ diff_messages a b ks ↔
      ∃ k, k ∈ ks ∧ k ∉ excluded_ids ∧ ∃ old new, a.lookup k = some old ∧
        b.lookup k = some new ∧ old ≠ new ∧ m = entry_message k old new := by
  intro ks
  induction ks with
  | nil => simp [diff_messages]
  | cons k ks ih =>
    cases ha : a.lookup k with
    | none =>
      have hstep : diff_messages a b (k :: ks) = diff_messages a b ks := by
        rw [diff_messages, ha]
      rw [hstep, ih]
      constructor
      · rintro ⟨k', hk', rest⟩
        exact ⟨k', List.mem_cons_of_mem _ hk', rest⟩
      · rintro ⟨k', hk', hex, old, new, ha', rest⟩
        rcases List.mem_cons.mp hk' with rfl | hk'
        · rw [ha] at ha'; cases ha'
        · exact ⟨k', hk', hex, old, new, ha', rest⟩
    | some old =>
      cases hb : b.lookup k with
      | none =>
        have hstep : diff_messages a b (k :: ks) = diff_messages a b ks := by
          rw [diff_messages, ha, hb]
        rw [hstep, ih]
        constructor
        · rintro ⟨k', hk', rest⟩
          exact ⟨k', List.mem_cons_of_mem _ hk', rest⟩
        · rintro ⟨k', hk', hex, old', new', ha', hb', rest⟩
          rcases List.mem_cons.mp hk' with rfl | hk'
          · rw [hb] at hb'; cases hb'
          · exact ⟨k', hk', hex, old', new', ha', hb', rest⟩
      | some new =>
        have hstep : diff_messages a b (k :: ks) =
            if k ∈ excluded_ids then diff_messages a b ks
            else if old = new then diff_messages a b ks
            else entry_message k old new :: diff_messages a b ks := by
          rw [diff_messages, ha, hb]
        rw [hstep]
        by_cases hexcl : k ∈ excluded_ids
        · rw [if_pos hexcl, ih]
          constructor
          · rintro ⟨k', hk', rest⟩
            exact ⟨k', List.mem_cons_of_mem _ hk', rest⟩
          · rintro ⟨k', hk', hex, old', new', ha', hb', rest⟩
            rcases List.mem_cons.mp hk' with rfl | hk'
            · exact absurd hexcl hex
            · exact ⟨k', hk', hex, old', new', ha', hb', rest⟩
        · rw [if_neg hexcl]
          by_cases heq : old = new
          · rw [if_pos heq, ih]
            constructor
            · rintro ⟨k', hk', rest⟩
              exact ⟨k', List.mem_cons_of_mem _ hk', rest⟩
            · rintro ⟨k', hk', hex, old', new', ha', hb', hne, hm⟩
              rcases List.mem_cons.mp hk' with rfl | hk'
              · rw [ha] at ha'; rw [hb] at hb'
                cases ha'; cases hb'
                exact absurd heq hne
              · exact ⟨k', hk', hex, old', new', ha', hb', hne, hm⟩
          · rw [if_neg heq]
            constructor
            · intro hmem
              rcases List.mem_cons.mp hmem with rfl | hmem
              · exact ⟨k, List.mem_cons_self _ _, hexcl, old, new, ha, hb, heq, rfl⟩
              · rcases ih.mp hmem with ⟨k', hk', rest⟩
                exact ⟨k', List.mem_cons_of_mem _ hk', rest⟩
            · rintro ⟨k', hk', hex, old', new', ha', hb', hne, hm⟩
              rcases List.mem_cons.mp hk' with rfl | hk'
              · rw [ha] at ha'; rw [hb] at hb'
                cases ha'; cases hb'
                exact hm ▸ List.mem_cons_self _ _
              · exact List.mem_cons_of_mem _ (ih.mpr ⟨k', hk', hex, old', new', ha', hb', hne, hm⟩)

/-- The diff loop over identical dicts emits nothing, for any key list. -/
theorem diff_messages_self (a : Dict) : ∀ ks : List String, diff_messages a a ks = [] := by
  intro ks
  induction ks with
  | nil => rfl
  | cons k ks ih =>
    rw [diff_messages]
    cases h : a.lookup k with
    | none => exact ih
    | some v => simp [ih]

/-- Any batch result the update pattern returns carries the status code the
shared reduction computes from its own success/fail lists. -/
theorem batch_update_statusCode (idKey lastUpdateKey : String) (db : Db)
    (claims : TokenClaims) (project_id today uuid now : String) (items : List Dict)
    (r : BatchResult)
    (h : batch_update idKey lastUpdateKey db claims project_id today uuid now items = .ok r) :
    r.statusCode = determine_status_code r.success r.fail := by
  unfold batch_update at h
  cases hgo : batch_update_go idKey lastUpdateKey db claims project_id today uuid now items ([], [], []) with
  | error e => rw [hgo] at h; simp [Except.map] at h
  | ok acc =>
    rw [hgo] at h
    simp [Except.map] at h
    subst h
    rfl

/-- C4: for every field map `X`, the diff of `X` against itself is the empty
list: `diff(X, X) = []` (proved for all maps, in particular those with
non-empty shared keys). -/
theorem claim_C4_diff_self_empty (X : Dict) : generate_differences_message X X = [] := by
  simp [generate_differences_message, diff_messages_self]

/-- C5: the diff output never contains duplicate strings — it is `Nodup`, and
any string that occurs in it occurs exactly once, even when two distinct
changed fields produce identical description strings. -/
theorem claim_C5_diff_dedup (previous proposed : Dict) :
    (generate_differences_message previous proposed).Nodup ∧
    ∀ m, m ∈ generate_differences_message previous proposed →
      (generate_differences_message previous proposed).count m = 1 :=
  ⟨List.nodup_dedup _,
   fun _ hm => List.count_eq_one_of_mem (List.nodup_dedup _) hm⟩

/-- Witness for C5 at the label-colliding maps: the two distinct changed keys
`"aB"` and `"a b"` both produce `"Updated 'a b'"`, which occurs exactly once. -/
theorem claim_C5_witness :
    (generate_differences_message dup_prev dup_proposed).Nodup ∧
    (generate_differences_message dup_prev dup_proposed).count "Updated 'a b'" = 1 :=
  ⟨(claim_C5_diff_dedup dup_prev dup_proposed).1,
   (claim_C5_diff_dedup dup_prev dup_proposed).2 _ (by decide)⟩

/-- C3 counterexample: `reportId` — the Report entity's own identifier — is
present in both maps with differing values, yet the diff reports it: only the
four hard-coded identifiers of utils.py:55 are excluded, not the identifier
fields of every entity kind. -/
theorem claim_C3_counterexample :
    generate_differences_message [("reportId", .vstr "a")] [("reportId", .vstr "b")] =
      ["Updated 'report id' from 'a' to 'b'"] := by decide

/-- C3 amended: every message in the diff output arises from a changed shared
key that is not one of the four excluded identifiers `scopeId`, `issueId`,
`projectId`, `milestoneId`; those four never contribute a message, while
identifier fields of other entity kinds (e.g. `reportId`) are compared like
ordinary business data. -/
theorem claim_C3_amended_only_four_ids_excluded :
    ∀ (previous proposed : Dict) (m : String),
      m ∈ generate_differences_message previous proposed →
      ∃ k old new, k ∉ excluded_ids ∧ previous.lookup k = some old ∧
        proposed.lookup k = some new ∧ old ≠ new ∧ m = entry_message k old new := by
  intro a b m hm
  have hmem : m ∈ diff_messages a b (get_common_keys a b) := by
    simpa [generate_differences_message, List.mem_dedup] using hm
  rcases mem_diff_messages.mp hmem with ⟨k, _, hex, old, new, ha, hb, hne, hmsg⟩
  exact ⟨k, old, new, hex, ha, hb, hne, hmsg⟩

/-- Witness for the amended C3 at a concrete changed `status` field. -/
theorem claim_C3_witness :
    ∃ k old new, k ∉ excluded_ids ∧
      ([("status", .vstr "open")] : Dict).lookup k = some old ∧
      ([("status", .vstr "resolved")] : Dict).lookup k = some new ∧ old ≠ new ∧
      "Updated 'status' from 'open' to 'resolved'" = entry_message k old new :=
  claim_C3_amended_only_four_ids_excluded _ _ _ (by decide)

/-- C6: a changed non-identifier shared key emits its `entry_message` into the
diff output; that message reads `Updated '<label>' from '<old>' to '<new>'`
when both values are scalar text and `Updated '<label>'` otherwise; and the
label conversion places a space before every non-initial upper-case character
— in particular a token boundary at every lowercase-to-uppercase transition —
and lower-cases it. -/
theorem claim_C6_message_format :
    (∀ (previous proposed : Dict) (k : String) (old new : Value),
        previous.lookup k = some old → proposed.lookup k = some new →
        k ∉ excluded_ids → old ≠ new →
        entry_message k old new ∈ generate_differences_message previous proposed)
    ∧ (∀ (k o n : String),
        entry_message k (.vstr o) (.vstr n) =
          "Updated '" ++ camelToLabel k ++ "' from '" ++ o ++ "' to '" ++ n ++ "'")
    ∧ (∀ (k e : String) (v : Value),
        entry_message k (.vraw e) v = "Updated '" ++ camelToLabel k ++ "'")
    ∧ (∀ (k e : String) (v : Value),
        entry_message k v (.vraw e) = "Updated '" ++ camelToLabel k ++ "'")
    ∧ (∀ (xs ys : List Char) (c : Char), c.isUpper = true →
        ((xs ++ c :: ys).map camelTail).flatten =
          (xs.map camelTail).flatten ++ ' ' :: c.toLower :: (ys.map camelTail).flatten) := by
  refine ⟨?_, fun k o n => rfl, fun k e v => by cases v <;> rfl,
    fun k e v => by cases v <;> rfl, ?_⟩
  · intro a b k old new ha hb hex hne
    have hk : k ∈ get_common_keys a b :=
      mem_get_common_keys.mpr ⟨lookup_mem_keys ha, lookup_mem_keys hb⟩
    have hmem : entry_message k old new ∈ diff_messages a b (get_common_keys a b) :=
      mem_diff_messages.mpr ⟨k, hk, hex, old, new, ha, hb, hne, rfl⟩
    simpa [generate_differences_message, List.mem_dedup] using hmem
  · intro xs ys c hc
    simp [camelTail, hc, List.map_append]

/-- Witness for C6: the changed `dueDate` field emits its formatted message,
and the label conversion splits at the lowercase-to-uppercase boundary. -/
theorem claim_C6_witness :
    entry_message "dueDate" (.vstr "a") (.vstr "b") ∈
      generate_differences_message [("dueDate", .vstr "a")] [("dueDate", .vstr "b")] ∧
    ((['d'] ++ 'D' :: ['x']).map camelTail).flatten =
      (['d'].map camelTail).flatten ++ ' ' :: Char.toLower 'D' :: (['x'].map camelTail).flatten :=
  ⟨claim_C6_message_format.1 _ _ _ _ _ (by decide) (by decide) (by decide) (by decide),
   claim_C6_message_format.2.2.2.2 ['d'] ['x'] 'D' (by decide)⟩

/-- C1: every batch update (issues, milestones, reports) returns the status
code computed from its final success/fail id lists by the four-way precedence:
success non-empty and fail empty → 200; success empty and fail non-empty →
403; both non-empty → 405; both empty → 304. -/
theorem claim_C1_batch_status_classification :
    (∀ success fail : List Value, determine_status_code success fail =
      if success ≠ [] ∧ fail = [] then 200
      else if success = [] ∧ fail ≠ [] then 403
      else if success ≠ [] ∧ fail ≠ [] then 405
      else 304)
    ∧ (∀ (db : Db) (claims : TokenClaims) (project_id today uuid now : String)
        (items : List Dict) (r : BatchResult),
        update_existing_issue db claims project_id today uuid now items = .ok r →
        r.statusCode = determine_status_code r.success r.fail)
    ∧ (∀ (db : Db) (claims : TokenClaims) (project_id today uuid now : String)
        (items : List Dict) (r : BatchResult),
        update_existing_milestone db claims project_id today uuid now items = .ok r →
        r.statusCode = determine_status_code r.success r.fail)
    ∧ (∀ (db : Db) (claims : TokenClaims) (project_id today uuid now : String)
        (items : List Dict) (r : BatchResult),
        update_existing_reports db claims project_id today uuid now items = .ok r →
        r.statusCode = determine_status_code r.success r.fail) := by
  refine ⟨?_, ?_, ?_, ?_⟩
  · intro s f
    rcases s with _ | ⟨x, s⟩ <;> rcases f with _ | ⟨y, f⟩ <;>
      simp [determine_status_code, Nat.succ_le_iff]
  · intro db claims project_id today uuid now items r h
    exact batch_update_statusCode _ _ _ _ _ _ _ _ _ _ h
  · intro db claims project_id today uuid now items r h
    exact batch_update_statusCode _ _ _ _ _ _ _ _ _ _ h
  · intro db claims project_id today uuid now items r h
    exact batch_update_statusCode _ _ _ _ _ _ _ _ _ _ h

/-- Witness for C1 at the empty batch: the classification of empty lists is
304, and the issue batch on no items returns exactly that. -/
theorem claim_C1_witness :
    determine_status_code [] [] = 304 ∧
    ({ success := [], fail := [], workflows := [], statusCode := 304 } : BatchResult).statusCode =
      determine_status_code [] [] :=
  ⟨by simpa using claim_C1_batch_status_classification.1 [] [],
   claim_C1_batch_status_classification.2.1 empty_db sample_claims "P1" "2026-01-15"
     "u1" "t1" [] _ rfl⟩

/-- C2: in the shared batch loop an item whose previous entity cannot be read
is skipped, leaving the success list, the fail list and the written audit
records unchanged; and the concrete batch of three milestones where `M404`
does not exist while `M1` and `M2` update successfully classifies as 200 with
two success ids and no fail ids. -/
theorem claim_C2_skip_absent :
    (∀ (idKey lastUpdateKey : String) (db : Db) (claims : TokenClaims)
        (project_id today uuid now : String) (item : Dict)
        (s f : List Value) (ws : List WorkflowRecord) (sv ev : Value),
        item.lookup "scopeId" = some sv → item.lookup idKey = some ev →
        db.read sv ev = none →
        process_item idKey lastUpdateKey db claims project_id today uuid now item (s, f, ws) =
          .ok (s, f, ws))
    ∧ (update_existing_milestone scenario_db sample_claims "P1" "2026-01-15" "u1" "t1"
        [m_item1, m_item3, m_item2]).map (fun r => (r.statusCode, r.success.length, r.fail)) =
        .ok (200, 2, []) := by
  refine ⟨?_, by rfl⟩
  intro idKey lastUpdateKey db claims project_id today uuid now item s f ws sv ev hs he hr
  simp [process_item, hs, he, hr]

/-- Witness for C2: the loop step on the absent milestone `M404` leaves the
empty accumulator untouched. -/
theorem claim_C2_witness :
    process_item "milestoneId" "lastUpdate" scenario_db sample_claims "P1" "2026-01-15"
      "u1" "t1" m_item3 ([], [], []) = .ok ([], [], []) ∧
    (update_existing_milestone scenario_db sample_claims "P1" "2026-01-15" "u1" "t1"
      [m_item1, m_item3, m_item2]).map (fun r => (r.statusCode, r.success.length, r.fail)) =
      .ok (200, 2, []) :=
  ⟨claim_C2_skip_absent.1 "milestoneId" "lastUpdate" scenario_db sample_claims "P1"
     "2026-01-15" "u1" "t1" m_item3 [] [] [] (.vstr "S1") (.vstr "M404")
     (by decide) (by decide) (by rfl),
   claim_C2_skip_absent.2⟩

/-- C7: when the diff of the previous entity against the timestamped proposed
item is empty, the loop step writes no audit record — the workflow list it
returns is exactly the one it received. -/
theorem claim_C7_noop_audit :
    ∀ (idKey lastUpdateKey : String) (db : Db) (claims : TokenClaims)
      (project_id today uuid now : String) (item : Dict) (s f : List Value)
      (ws : List WorkflowRecord) (sv ev : Value) (prev : Dict),
      item.lookup "scopeId" = some sv → item.lookup idKey = some ev →
      db.read sv ev = some prev →
      generate_differences_message prev (dictInsert item lastUpdateKey (.vstr today)) = [] →
      ∃ s' f', process_item idKey lastUpdateKey db claims project_id today uuid now item
        (s, f, ws) = .ok (s', f', ws) := by
  intro idKey lastUpdateKey db claims project_id today uuid now item s f ws sv ev prev
    hs he hr hmsg
  by_cases hst : 200 ≤ db.updateStatus (dictInsert item lastUpdateKey (.vstr today)) ∧
      db.updateStatus (dictInsert item lastUpdateKey (.vstr today)) < 300
  · exact ⟨s ++ [ev], f, by simp [process_item, hs, he, hr, hmsg, hst]⟩
  · exact ⟨s, f ++ [ev], by simp [process_item, hs, he, hr, hmsg, hst]⟩

/-- Witness for C7: updating milestone `M1` with its stored field values
produces an empty diff and the loop step appends no workflow record. -/
theorem claim_C7_witness :
    ∃ s' f', process_item "milestoneId" "lastUpdate" scenario_db sample_claims "P1"
      "2026-01-15" "u1" "t1" m_item_noop ([], [], []) = .ok (s', f', []) :=
  claim_C7_noop_audit "milestoneId" "lastUpdate" scenario_db sample_claims "P1"
    "2026-01-15" "u1" "t1" m_item_noop [] [] [] (.vstr "S1") (.vstr "M1") m_prev1
    (by decide) (by decide) (by rfl) (by decide)

/-- C10: the loop step writes the audit record whenever the diff is non-empty,
even when the merge write reports a non-2xx status; the item then lands in the
fail list while the record is still appended — audit is keyed on the diff, not
on the update's success. -/
theorem claim_C10_audit_on_failed_update :
    ∀ (idKey lastUpdateKey : String) (db : Db) (claims : TokenClaims)
      (project_id today uuid now : String) (item : Dict) (s f : List Value)
      (ws : List WorkflowRecord) (sv ev : Value) (prev : Dict) (msg : List String),
      item.lookup "scopeId" = some sv → item.lookup idKey = some ev →
      db.read sv ev = some prev →
      generate_differences_message prev (dictInsert item lastUpdateKey (.vstr today)) = msg →
      msg ≠ [] →
      ¬(200 ≤ db.updateStatus (dictInsert item lastUpdateKey (.vstr today)) ∧
        db.updateStatus (dictInsert item lastUpdateKey (.vstr today)) < 300) →
      process_item idKey lastUpdateKey db claims project_id today uuid now item (s, f, ws) =
        .ok (s, f ++ [ev],
             ws ++ [update_workflows claims "Update" msg project_id ev uuid now]) := by
  intro idKey lastUpdateKey db claims project_id today uuid now item s f ws sv ev prev msg
    hs he hr hmsg hne hst
  subst hmsg
  simp [process_item, hs, he, hr, hne, hst]

/-- Witness for C10: the failing store rejects the `M1` update with 500, yet
the audit record for the non-empty diff is appended and `M1` is added to the
fail list. -/
theorem claim_C10_witness :
    process_item "milestoneId" "lastUpdate" failing_db sample_claims "P1" "2026-01-15"
      "u1" "t1" m_item1 ([], [], []) =
      .ok ([], [.vstr "M1"],
           [update_workflows sample_claims "Update"
             ["Updated 'milestone name' from 'alpha' to 'alpha2'"] "P1" (.vstr "M1")
             "u1" "t1"]) :=
  claim_C10_audit_on_failed_update "milestoneId" "lastUpdate" failing_db sample_claims
    "P1" "2026-01-15" "u1" "t1" m_item1 [] [] [] (.vstr "S1") (.vstr "M1") m_prev1
    ["Updated 'milestone name' from 'alpha' to 'alpha2'"] (by decide) (by decide)
    (by rfl) (by rfl) (by decide) (by decide)

/-- C8: updating the stored issue `I1` (criticality `"low"`) with a proposed
item setting criticality to `"high"` and leaving `dueDate` unchanged yields
the one-element diff `["Updated 'criticality' from 'low' to 'high'"]`, and the
batch update appends exactly one audit record, with action `"Update"`. -/
theorem claim_C8_criticality_scenario :
    generate_differences_message issue_prev
        (dictInsert issue_item "lastUpdate" (.vstr "2026-01-15")) =
      ["Updated 'criticality' from 'low' to 'high'"] ∧
    update_existing_issue issue_db sample_claims "P1" "2026-01-15" "u1" "t1" [issue_item] =
      .ok { success := [.vstr "I1"], fail := [],
            workflows := [update_workflows sample_claims "Update"
              ["Updated 'criticality' from 'low' to 'high'"] "P1" (.vstr "I1") "u1" "t1"],
            statusCode := 200 } ∧
    (update_workflows sample_claims "Update" ["Updated 'criticality' from 'low' to 'high'"]
      "P1" (.vstr "I1") "u1" "t1").action = "Update" :=
  ⟨by rfl, by rfl, rfl⟩

/-- C9: a freshly created issue has `status = "open"` whatever its other
fields are, and the analytics skeleton seeded at project creation has every
leaf counter equal to zero and its one dynamic nested map empty. -/
theorem claim_C9_creation_defaults :
    (∀ (object_id scope_id issue_name region business_unit date_of_raise due_date
        nature_of_issue criticality issue_description impact_value currency
        impact_on : String) (document_ref issue_owner : Value)
        (resolution_path today : String),
      (create_new_issue_object object_id scope_id issue_name region business_unit
        date_of_raise due_date nature_of_issue criticality issue_description
        impact_value currency impact_on document_ref issue_owner resolution_path
        today).lookup "status" = some (.vstr "open"))
    ∧ analytics_skeleton.leafCounters.all (fun n => n == 0) = true
    ∧ analytics_skeleton.issues.natureOfIssue = [] := by
  refine ⟨?_, by decide, rfl⟩
  intro object_id scope_id issue_name region business_unit date_of_raise due_date
    nature_of_issue criticality issue_description impact_value currency impact_on
    document_ref issue_owner resolution_path today
  rfl
